import Mathlib

/-!
Verification of the PortaPack M0 input/event core against its specification.

Embedded source:
* `touch.cpp` (namespace `touch`): raw-sample conditioning (`calculate_metrics`)
  and the touch gesture state machine (`Manager::feed`).
* `event_m0.cpp`: `MessageHandlerMap` (register/unregister/send), the
  `EventDispatcher` dispatch cycle with its display-sleep gating,
  widget-tree hit testing (`touch_widget`), touch capture
  (`on_touch_event`), and key-event bubbling (`event_bubble_key` /
  `handle_switches`).

Modelling conventions: C++ `float` is modelled as `ℚ`; unsigned ADC readings
and coordinates are modelled as `Int`; `std::function` handler values are an
opaque type parameter; pointers that may be null are `Option`; a fatal
`chDbgPanic` is the `none` result of an `Option`-returning operation.
Components whose code lies outside the embedded slice (coordinate-filter
internals, calibration constants, `ui::Rect::contains`) are modelled from the
specification and say so in their doc comments.
-/

namespace touch

/-- One group of four raw ADC readings (fields `xp`, `xn`, `yp`, `yn`) as read
during one drive phase of the 4-wire panel.  The unsigned hardware readings
are modelled as integers. -/
structure AxisReadings where
  xp : Int
  xn : Int
  yp : Int
  yn : Int
deriving DecidableEq

/-- A raw sample frame: readings for the x, y and pressure drive phases plus
the digital touch-contact flag, as consumed by `touch.cpp`. -/
structure Frame where
  x : AxisReadings
  y : AxisReadings
  pressure : AxisReadings
  touch : Bool
deriving DecidableEq

/-- Normalized metrics (`touch.cpp` `struct Metrics`); `float` modelled as `ℚ`. -/
structure Metrics where
  x : ℚ
  y : ℚ
  r : ℚ

/-- `touch::calculate_metrics` (`touch.cpp`): per-axis normalized position and
the 4-wire resistance estimate.  The `/ 2` midpoints are the C++ integer
divisions; the subsequent divisions are the `float` divisions, as `ℚ`. -/
def calculate_metrics (frame : Frame) : Metrics :=
  let x_max := frame.x.xp
  let x_min := frame.x.xn
  let x_range := x_max - x_min
  let x_position := (frame.x.yp + frame.x.yn) / 2
  let x_norm : ℚ := ((x_position - x_min : ℤ) : ℚ) / ((x_range : ℤ) : ℚ)
  let y_max := frame.y.yn
  let y_min := frame.y.yp
  let y_range := y_max - y_min
  let y_position := (frame.y.xp + frame.y.xn) / 2
  let y_norm : ℚ := ((y_position - y_min : ℤ) : ℚ) / ((y_range : ℤ) : ℚ)
  let z_max := frame.pressure.yp
  let z_min := frame.pressure.xn
  let z_range := z_max - z_min
  let z1_position := frame.pressure.xp
  let z1_norm : ℚ := ((z1_position - z_min : ℤ) : ℚ) / ((z_range : ℤ) : ℚ)
  let z2_position := frame.pressure.yn
  let z2_norm : ℚ := ((z2_position - z_min : ℤ) : ℚ) / ((z_range : ℤ) : ℚ)
  let r_x_plate : ℚ := 330
  let r_touch := r_x_plate * x_norm * (z2_norm / z1_norm - 1)
  { x := x_norm, y := y_norm, r := r_touch }

/-- The two states of `touch::Manager` (`touch.hpp` `enum State`). -/
inductive State where
  | NoTouch
  | TouchDetected
deriving DecidableEq

/-- The gesture callbacks one `feed` step can emit
(`touch_started` / `touch_moved` / `touch_ended`). -/
inductive Callback where
  | started
  | moved
  | ended
deriving DecidableEq

/-- Modelled from the spec: the calibration and threshold constants
(`width_pixels`, `height_pixels`, `calib_*`, `r_touch_threshold`) live in
`touch.hpp`, outside the embedded slice; the spec names them but fixes no
values, so they are carried as parameters. -/
structure Calibration where
  width_pixels : ℚ
  height_pixels : ℚ
  calib_x_low : ℚ
  calib_x_range : ℚ
  calib_y_high : ℚ
  calib_y_range : ℚ
  r_touch_threshold : ℚ

/-- `touch::Manager` state.  Modelled from the spec: the `CoordinateFilter`
internals are in `touch.hpp`, outside the embedded slice; per the spec `feed`
folds a sample into the running estimate and `reset` clears all accumulated
state, so a filter is modelled by the list of samples fed since its last
reset. -/
structure Manager where
  state : State
  filter_x : List ℚ
  filter_y : List ℚ

/-- `touch::Manager::feed` (`touch.cpp`).  `point_stable()` is an external
stability predicate (per the spec); its value for this sample is the oracle
input `stable`.  Returns the updated manager and the callbacks emitted, in
order. -/
def Manager.feed (cal : Calibration) (m : Manager) (frame : Frame) (stable : Bool) :
    Manager × List Callback :=
  let touch_raw := frame.touch
  let touch_stable := frame.touch
  let touch_pressure : Bool :=
    if touch_raw then decide ((calculate_metrics frame).r < cal.r_touch_threshold) else false
  let m1 :=
    if touch_raw then
      if touch_pressure then
        let metrics := calculate_metrics frame
        let x := cal.width_pixels * (metrics.x - cal.calib_x_low) / cal.calib_x_range
        let y := cal.height_pixels * (cal.calib_y_high - metrics.y) / cal.calib_y_range
        { m with filter_x := m.filter_x ++ [x], filter_y := m.filter_y ++ [y] }
      else m
    else { m with filter_x := [], filter_y := [] }
  match m1.state with
  | State.NoTouch =>
      if touch_stable && touch_pressure then
        if stable then ({ m1 with state := State.TouchDetected }, [Callback.started])
        else (m1, [])
      else (m1, [])
  | State.TouchDetected =>
      if touch_stable && touch_pressure then (m1, [Callback.moved])
      else ({ m1 with state := State.NoTouch }, [Callback.ended])

/-- Iterated `feed` over a list of (frame, point-stable) samples, concatenating
the emitted callbacks in order. -/
def Manager.feedRun (cal : Calibration) (m : Manager) :
    List (Frame × Bool) → Manager × List Callback
  | [] => (m, [])
  | s :: rest =>
      let fed := Manager.feed cal m s.1 s.2
      let tail := Manager.feedRun cal fed.1 rest
      (tail.1, fed.2 ++ tail.2)

/-- A sample that passes both the digital-contact test and the pressure test
inside `feed`. -/
def qualified (cal : Calibration) (frame : Frame) : Prop :=
  frame.touch = true ∧ (calculate_metrics frame).r < cal.r_touch_threshold

instance (cal : Calibration) (frame : Frame) : Decidable (qualified cal frame) := by
  unfold qualified
  infer_instance

end touch

universe u

/-- `MessageHandlerMap` (`event_m0.cpp`): an array from message ID to at most
one handler.  Handler values (`std::function`) are opaque, so the handler type
is a parameter; `max` is `Message::ID::MAX`, the declared size of the array. -/
structure MessageHandlerMap (α : Type u) where
  max : Nat
  map : Nat → Option α

/-- `MessageHandlerMap::register_handler`: the `chDbgPanic("MsgDblReg")` taken
when the slot already holds a handler is modelled as `none`; otherwise the
handler is stored into the slot. -/
def MessageHandlerMap.register_handler {α : Type u} (m : MessageHandlerMap α)
    (id : Nat) (h : α) : Option (MessageHandlerMap α) :=
  match m.map id with
  | some _ => none
  | none => some { m with map := fun i => if i = id then some h else m.map i }

/-- `MessageHandlerMap::unregister_handler`: clears the slot. -/
def MessageHandlerMap.unregister_handler {α : Type u} (m : MessageHandlerMap α)
    (id : Nat) : MessageHandlerMap α :=
  { m with map := fun i => if i = id then none else m.map i }

/-- `MessageHandlerMap::send`: when the ID is below `Message::ID::MAX` and a
handler is registered there, that handler is invoked.  Returns the invoked
handler (`none` when the message is silently dropped) together with the map,
which `send` never writes. -/
def MessageHandlerMap.send {α : Type u} (m : MessageHandlerMap α) (id : Nat) :
    Option α × MessageHandlerMap α :=
  if id < m.max then
    match m.map id with
    | some f => (some f, m)
    | none => (none, m)
  else (none, m)

/-- An empty handler map over handler type `Nat`, for concrete instantiation. -/
def mapEmpty : MessageHandlerMap Nat :=
  { max := 8, map := fun _ => none }

/-- A map holding handler `7` at ID `3`, for concrete instantiation. -/
def mapWith3 : MessageHandlerMap Nat :=
  { max := 8, map := fun i => if i = 3 then some 7 else none }

namespace ui

/-- A screen point (`ui::Point`); coordinates modelled as integers. -/
structure Point where
  x : Int
  y : Int
deriving DecidableEq

/-- A screen rectangle (`ui::Rect`): origin and size. -/
structure Rect where
  x : Int
  y : Int
  w : Int
  h : Int
deriving DecidableEq

/-- Modelled from the spec: `ui::Rect::contains` is outside the embedded
slice; the spec says hit testing asks whether the widget's screen rectangle
contains the event point, so containment is the standard half-open test. -/
def Rect.contains (r : Rect) (p : Point) : Bool :=
  decide (r.x ≤ p.x) && decide (p.x < r.x + r.w) &&
    decide (r.y ≤ p.y) && decide (p.y < r.y + r.h)

/-- The tag of a `ui::TouchEvent` (`Start`, `Move`, `End`). -/
inductive TouchEventType where
  | Start
  | Move
  | End
deriving DecidableEq

/-- A `ui::TouchEvent`: a tag plus the touched point. -/
structure TouchEvent where
  type : TouchEventType
  point : Point
deriving DecidableEq

/-- A widget-tree node as the hit tester consumes it through the widget
interface: the `hidden()` flag, the `screen_rect()` rectangle, the virtual
`on_touch(event)` consumption answer (opaque per-widget behaviour, modelled as
a function of the event), and the owned `children()` in draw order. -/
inductive Widget where
  | mk (hidden : Bool) (screen_rect : Rect) (ontouch : TouchEvent → Bool)
      (children : List Widget)

/-- The `hidden()` accessor. -/
def Widget.hidden : Widget → Bool
  | Widget.mk h _ _ _ => h

/-- The `screen_rect()` accessor. -/
def Widget.screen_rect : Widget → Rect
  | Widget.mk _ r _ _ => r

/-- The `on_touch(event)` answer. -/
def Widget.ontouch : Widget → TouchEvent → Bool
  | Widget.mk _ _ t _ => t

/-- The `children()` accessor. -/
def Widget.children : Widget → List Widget
  | Widget.mk _ _ _ c => c

end ui

mutual

/-- `EventDispatcher::touch_widget` (`event_m0.cpp`): skip hidden subtrees,
descend into the children first (in the order `children()` yields them), and
only if no descendant responded test this widget's own rectangle and
`on_touch`.  Returns the responding widget, or `none`. -/
def touch_widget : ui.Widget → ui.TouchEvent → Option ui.Widget
  | ui.Widget.mk hidden rect ontouch children, event =>
    if hidden then none
    else
      match touch_widget_children children event with
      | some touched => some touched
      | none =>
        if rect.contains event.point then
          if ontouch event then some (ui.Widget.mk hidden rect ontouch children)
          else none
        else none

/-- The child loop of `EventDispatcher::touch_widget`: try each child in list
order, returning the first subtree hit. -/
def touch_widget_children : List ui.Widget → ui.TouchEvent → Option ui.Widget
  | [], _ => none
  | c :: rest, event =>
    match touch_widget c event with
    | some touched => some touched
    | none => touch_widget_children rest event

end

/-- `EventDispatcher::on_touch_event` (`event_m0.cpp`): on a `Start` event the
captured widget is reassigned from a fresh hit test at the root; then, for
every event, the captured widget (if any) receives `on_touch`.  Returns the
new captured widget and the widget whose `on_touch` was invoked (`none` when
no widget was touched). -/
def on_touch_event (top_widget : ui.Widget) (captured_widget : Option ui.Widget)
    (event : ui.TouchEvent) : Option ui.Widget × Option ui.Widget :=
  let captured :=
    if event.type = ui.TouchEventType.Start then touch_widget top_widget event
    else captured_widget
  match captured with
  | some w => (some w, some w)
  | none => (none, none)

/-- Fixture: a consuming leaf widget with rectangle 10×10 at the origin. -/
def cexA : ui.Widget := ui.Widget.mk false ⟨0, 0, 10, 10⟩ (fun _ => true) []

/-- Fixture: a consuming leaf widget with rectangle 12×12 at the origin,
drawn after `cexA`. -/
def cexB : ui.Widget := ui.Widget.mk false ⟨0, 0, 12, 12⟩ (fun _ => true) []

/-- Fixture: a non-consuming leaf whose rectangle misses the test point. -/
def cexMiss : ui.Widget := ui.Widget.mk false ⟨50, 50, 5, 5⟩ (fun _ => false) []

/-- Fixture: a visible root whose children are `cexA` then `cexB`. -/
def cexRoot : ui.Widget := ui.Widget.mk false ⟨0, 0, 20, 20⟩ (fun _ => false) [cexA, cexB]

/-- Fixture: a Start touch at (1, 1), inside both `cexA` and `cexB`. -/
def cexEvent : ui.TouchEvent := ⟨ui.TouchEventType.Start, ⟨1, 1⟩⟩

/-- Fixture: a root none of whose widgets respond to `cexEvent`. -/
def cexDeadRoot : ui.Widget := ui.Widget.mk false ⟨0, 0, 20, 20⟩ (fun _ => false) [cexMiss]

/-- A node of the focused widget's parent chain, as key/encoder bubbling sees
it through the widget interface: the virtual `on_key` / `on_encoder`
consumption answers.  A key event is the switch index (the
`static_cast<ui::KeyEvent>(i)`), an encoder event the signed delta. -/
structure ChainNode where
  on_key : Nat → Bool
  on_encoder : Int → Bool

/-- `EventDispatcher::event_bubble_key` (`event_m0.cpp`): starting at the
focused widget, walk the parent chain invoking `on_key` until some widget
consumes the event or the chain is exhausted (null parent); true iff consumed.
The list [focused, parent of focused, ...] is the flattening of the
`focus_widget()` / `parent()` pointer walk. -/
def event_bubble_key (chain : List ChainNode) (event : Nat) : Bool :=
  match chain with
  | [] => false
  | n :: rest => if n.on_key event then true else event_bubble_key rest event

/-- `EventDispatcher::event_bubble_encoder`: the same walk with `on_encoder`;
the source discards the outcome (an unconsumed encoder event is dropped). -/
def event_bubble_encoder (chain : List ChainNode) (event : Int) : Bool :=
  match chain with
  | [] => false
  | n :: rest => if n.on_encoder event then true else event_bubble_encoder rest event

/-- The `EventDispatcher` state a dispatch cycle reads and writes:
`display_sleep`, `encoder_last`, the focused widget's parent chain (held by
the context's focus manager), and the touch manager. -/
structure EventDispatcher where
  display_sleep : Bool
  encoder_last : Nat
  focus_chain : List ChainNode
  touch_manager : touch.Manager

/-- `EventDispatcher::set_display_sleep`: the backlight and display power
calls act on external collaborators; the dispatcher-visible effect is the
flag. -/
def set_display_sleep (s : EventDispatcher) (sleep : Bool) : EventDispatcher :=
  { s with display_sleep := sleep }

/-- `EventDispatcher::handle_switches` (`event_m0.cpp`): while the display
sleeps, any pressed switch only wakes the display and the whole event is
swallowed; awake, each pressed switch index is bubbled as a key event and is
handed to `focus_manager().update` exactly when no widget consumed it.
Returns the new state and the key events handed to the focus manager's
update, in order. -/
def handle_switches (s : EventDispatcher) (switches_state : List Bool) :
    EventDispatcher × List Nat :=
  if s.display_sleep then
    if switches_state.any (fun b => b) then (set_display_sleep s false, [])
    else (s, [])
  else
    (s, (List.range switches_state.length).filter
          (fun i => switches_state.getD i false && ! event_bubble_key s.focus_chain i))

/-- Two's-complement reinterpretation of a wrapped 32-bit value (the
`static_cast<int32_t>` applied to the u32 difference). -/
def toInt32 (n : Nat) : Int :=
  if n % 2 ^ 32 < 2 ^ 31 then (n % 2 ^ 32 : Int) else (n % 2 ^ 32 : Int) - 2 ^ 32

/-- `EventDispatcher::handle_encoder`: the wrapping u32 counter difference
since the last read, reinterpreted as a signed delta, is bubbled along the
focus chain (consumption discarded); `encoder_last` becomes the new reading. -/
def handle_encoder (s : EventDispatcher) (encoder_now : Nat) : EventDispatcher :=
  let delta := toInt32 (((encoder_now : Int) - (s.encoder_last : Int)) % 2 ^ 32).toNat
  let s2 := { s with encoder_last := encoder_now }
  let _ := event_bubble_encoder s2.focus_chain delta
  s2

/-- `EventDispatcher::handle_touch`: feeds the polled frame to the touch
manager.  The callbacks the manager emits reach `on_touch_event` through the
`on_event` closure, modelled separately by `on_touch_event`. -/
def handle_touch (cal : touch.Calibration) (s : EventDispatcher)
    (frame : touch.Frame) (stable : Bool) : EventDispatcher :=
  { s with touch_manager := (touch.Manager.feed cal s.touch_manager frame stable).1 }

/-- The pending-event bitmask of one wake (the `EVT_MASK_*` bits), one flag
per source. -/
structure EventMask where
  application : Bool
  local_queue : Bool
  rtc_tick : Bool
  switches : Bool
  lcd_frame_sync : Bool
  encoder : Bool
  touch : Bool

/-- The event sources one dispatch cycle can service, for the servicing
trace. -/
inductive Serviced where
  | application
  | local_queue
  | rtc_tick
  | switches
  | lcd_frame_sync
  | encoder
  | touch
deriving DecidableEq

/-- The external inputs one dispatch cycle reads: `get_switches_state()`,
`get_encoder_position()`, `get_touch_frame()` and the stability oracle. -/
structure Inputs where
  switches_state : List Bool
  encoder_now : Nat
  frame : touch.Frame
  stable : Bool

/-- `EventDispatcher::dispatch` (`event_m0.cpp`): service each pending source
in the fixed order, with the LCD frame-sync, encoder and touch handlers behind
the `!display_sleep` gate — a gate read only after `handle_switches` has run.
The queue drains, the RTC tick and the frame-sync send/paint act on external
collaborators, so their servicing is recorded in the trace; `handle_switches`,
`handle_encoder` and `handle_touch` also update the dispatcher state.
Returns the new state and the trace of serviced sources, in order.

One `if( events & EVT_MASK_* )` check of the sequence is `service cond tag f`:
when the bit is pending, run the handler's state update `f` and append the
source to the servicing trace. -/
def service (cond : Bool) (tag : Serviced) (f : EventDispatcher → EventDispatcher)
    (acc : EventDispatcher × List Serviced) : EventDispatcher × List Serviced :=
  if cond then (f acc.1, acc.2 ++ [tag]) else acc

/-- The dispatch sequence itself; see `service`. -/
def dispatch (cal : touch.Calibration) (s : EventDispatcher) (events : EventMask)
    (inp : Inputs) : EventDispatcher × List Serviced :=
  let acc : EventDispatcher × List Serviced := (s, [])
  let acc := service events.application Serviced.application id acc
  let acc := service events.local_queue Serviced.local_queue id acc
  let acc := service events.rtc_tick Serviced.rtc_tick id acc
  let acc := service events.switches Serviced.switches
    (fun st => (handle_switches st inp.switches_state).1) acc
  if ! acc.1.display_sleep then
    let acc := service events.lcd_frame_sync Serviced.lcd_frame_sync id acc
    let acc := service events.encoder Serviced.encoder
      (fun st => handle_encoder st inp.encoder_now) acc
    let acc := service events.touch Serviced.touch
      (fun st => handle_touch cal st inp.frame inp.stable) acc
    acc
  else acc

/-- Fixture: a touch manager at rest in `NoTouch` with clear filters. -/
def mgrIdle : touch.Manager :=
  { state := touch.State.NoTouch, filter_x := [], filter_y := [] }

/-- Fixture: a concrete calibration with pressure threshold 100. -/
def calFix : touch.Calibration :=
  { width_pixels := 240, height_pixels := 320, calib_x_low := 0, calib_x_range := 1,
    calib_y_high := 1, calib_y_range := 1, r_touch_threshold := 100 }

/-- Fixture: a contact-present frame whose metrics give `x = y = 1/2` and
resistance `r = 0`, well under threshold 100. -/
def frameQual : touch.Frame :=
  { x := { xp := 4, xn := 0, yp := 2, yn := 2 },
    y := { xp := 2, xn := 2, yp := 0, yn := 4 },
    pressure := { xp := 2, xn := 0, yp := 4, yn := 2 },
    touch := true }

/-- Fixture: a frame with no digital contact. -/
def frameIdle : touch.Frame :=
  { x := { xp := 0, xn := 0, yp := 0, yn := 0 },
    y := { xp := 0, xn := 0, yp := 0, yn := 0 },
    pressure := { xp := 0, xn := 0, yp := 0, yn := 0 },
    touch := false }

/-- Fixture: a dispatcher that enters the cycle with the display asleep. -/
def sleepState : EventDispatcher :=
  { display_sleep := true, encoder_last := 0, focus_chain := [], touch_manager := mgrIdle }

/-- Fixture: every event-source bit pending at once. -/
def allPending : EventMask :=
  { application := true, local_queue := true, rtc_tick := true, switches := true,
    lcd_frame_sync := true, encoder := true, touch := true }

/-- Fixture: inputs with one switch pressed. -/
def pressInputs : Inputs :=
  { switches_state := [true], encoder_now := 0, frame := frameIdle, stable := false }

/-- Fixture: inputs with the one switch released. -/
def idleInputs : Inputs :=
  { switches_state := [false], encoder_now := 0, frame := frameIdle, stable := false }

/-- Fixture: a chain node consuming exactly key 5 and no encoder events. -/
def nodeA : ChainNode :=
  { on_key := fun e => decide (e = 5), on_encoder := fun _ => false }

/-- Fixture: a chain node consuming no keys and all encoder events. -/
def nodeB : ChainNode :=
  { on_key := fun _ => false, on_encoder := fun _ => true }

/-- Fixture: an awake dispatcher focused on the chain `[nodeA, nodeB]`. -/
def awakeState : EventDispatcher :=
  { display_sleep := false, encoder_last := 0, focus_chain := [nodeA, nodeB],
    touch_manager := mgrIdle }

/-- C7: for every sample frame, the resistance metric computed by
`calculate_metrics` equals `r = R_x_plate * x_norm * (z2_norm / z1_norm - 1)`
with `R_x_plate = 330`, where `x_norm` is the x midpoint
`(frame.x.yp + frame.x.yn) / 2` minus `x_min` normalized by the x range, and
`z1_norm`, `z2_norm` are the pressure readings normalized by the pressure
range. -/
theorem C7_resistance_formula (frame : touch.Frame) :
    (touch.calculate_metrics frame).r =
      330 *
        ((((frame.x.yp + frame.x.yn) / 2 - frame.x.xn : ℤ) : ℚ) /
          ((frame.x.xp - frame.x.xn : ℤ) : ℚ)) *
        (((((frame.pressure.yn - frame.pressure.xn : ℤ) : ℚ) /
            ((frame.pressure.yp - frame.pressure.xn : ℤ) : ℚ)) /
          (((frame.pressure.xp - frame.pressure.xn : ℤ) : ℚ) /
            ((frame.pressure.yp - frame.pressure.xn : ℤ) : ℚ))) - 1) := rfl

/-- C5: registering a handler for a message ID that already holds one aborts
fatally (the `chDbgPanic` branch, modelled as `none`), and registering into an
empty slot succeeds and stores the handler at that ID. -/
theorem C5_register_handler {α : Type} (m : MessageHandlerMap α) (id : Nat) (h : α) :
    ((m.map id).isSome = true → m.register_handler id h = none)
    ∧ (m.map id = none →
        ∃ m2, m.register_handler id h = some m2 ∧ m2.map id = some h) := by
  constructor
  · intro hs
    unfold MessageHandlerMap.register_handler
    cases heq : m.map id with
    | none => rw [heq] at hs; simp at hs
    | some f => simp
  · intro hn
    unfold MessageHandlerMap.register_handler
    rw [hn]
    exact ⟨_, rfl, by simp⟩

/-- C6: `send` invokes the registered handler exactly when the message ID is
within the bounded range and a handler is registered there; otherwise it is a
no-op; `send` never changes the map; and after `unregister_handler` clears the
slot, `send` for that ID invokes nothing. -/
theorem C6_send {α : Type} (m : MessageHandlerMap α) (id : Nat) :
    (m.send id).2 = m
    ∧ (∀ f : α, (m.send id).1 = some f ↔ id < m.max ∧ m.map id = some f)
    ∧ ((m.unregister_handler id).send id).1 = none := by
  refine ⟨?_, ?_, ?_⟩
  · unfold MessageHandlerMap.send
    split
    · cases m.map id <;> rfl
    · rfl
  · intro f
    unfold MessageHandlerMap.send
    by_cases hlt : id < m.max
    · rw [if_pos hlt]
      cases heq : m.map id with
      | none => simp [heq, hlt]
      | some g => simp [heq, hlt]
    · rw [if_neg hlt]
      simp [hlt]
  · unfold MessageHandlerMap.send MessageHandlerMap.unregister_handler
    simp

/-- Helper: a run of children whose subtrees all miss contributes nothing to
the child loop. -/
theorem touch_widget_children_append_none (cs1 cs2 : List ui.Widget)
    (e : ui.TouchEvent) (h : ∀ c ∈ cs1, touch_widget c e = none) :
    touch_widget_children (cs1 ++ cs2) e = touch_widget_children cs2 e := by
  induction cs1 with
  | nil => rfl
  | cons c rest ih =>
    have hc : touch_widget c e = none := h c (by simp)
    simp only [List.cons_append, touch_widget_children, hc]
    exact ih (fun x hx => h x (by simp [hx]))

/-- C1 (counterexample): two sibling leaves whose rectangles both contain the
event point and which both consume the event; `touch_widget` returns the
first-drawn sibling `cexA`, not the later-drawn (visually topmost) `cexB`,
because the child loop iterates `children()` in forward draw order. -/
theorem C1_reverse_order_counterexample :
    ui.Rect.contains (ui.Widget.screen_rect cexA) cexEvent.point = true
    ∧ ui.Rect.contains (ui.Widget.screen_rect cexB) cexEvent.point = true
    ∧ ui.Widget.ontouch cexA cexEvent = true
    ∧ ui.Widget.ontouch cexB cexEvent = true
    ∧ touch_widget cexRoot cexEvent = some cexA
    ∧ ¬ touch_widget cexRoot cexEvent = some cexB := by
  refine ⟨rfl, rfl, rfl, rfl, rfl, ?_⟩
  intro h
  rw [show touch_widget cexRoot cexEvent = some cexA from rfl] at h
  simp only [Option.some.injEq, cexA, cexB] at h
  simp at h

/-- C1 (amended): `touch_widget` tests the children of a visible parent in
forward draw order, each child's subtree before the parent's own rectangle;
the first-drawn sibling whose subtree responds is the one returned, even when
later-drawn siblings would also contain the point and consume the event. -/
theorem C1_first_drawn_sibling_wins (rect : ui.Rect) (ot : ui.TouchEvent → Bool)
    (cs1 cs2 : List ui.Widget) (a t : ui.Widget) (e : ui.TouchEvent)
    (hbefore : ∀ c ∈ cs1, touch_widget c e = none)
    (hhit : touch_widget a e = some t) :
    touch_widget (ui.Widget.mk false rect ot (cs1 ++ a :: cs2)) e = some t := by
  have hstep : touch_widget (ui.Widget.mk false rect ot (cs1 ++ a :: cs2)) e =
      match touch_widget_children (cs1 ++ a :: cs2) e with
      | some touched => some touched
      | none =>
        if rect.contains e.point then
          if ot e then some (ui.Widget.mk false rect ot (cs1 ++ a :: cs2)) else none
        else none := rfl
  rw [hstep, touch_widget_children_append_none cs1 (a :: cs2) e hbefore]
  simp only [touch_widget_children, hhit]

/-- Witness for C1 (amended): with children `[cexMiss, cexB, cexA]`, the miss
child is skipped and the first-drawn responding sibling `cexB` is returned,
although `cexA` also contains the point and consumes. -/
theorem C1_first_drawn_sibling_wins_witness :
    touch_widget
      (ui.Widget.mk false ⟨0, 0, 20, 20⟩ (fun _ => false) ([cexMiss] ++ cexB :: [cexA]))
      cexEvent = some cexB := by
  apply C1_first_drawn_sibling_wins
  · intro c hc
    rw [List.mem_singleton] at hc
    subst hc
    rfl
  · rfl

/-- C3: a `Start` event resolves the captured widget by a hit test from the
root (and delivers to that widget when the test responds), while every `Move`
or `End` event bypasses hit testing: whatever the root tree and whatever the
event's point, the previously captured widget is kept and is the one whose
`on_touch` is invoked. -/
theorem C3_touch_capture (top_widget : ui.Widget) (captured : Option ui.Widget)
    (e : ui.TouchEvent) :
    (e.type = ui.TouchEventType.Start →
      on_touch_event top_widget captured e =
        (touch_widget top_widget e, touch_widget top_widget e))
    ∧ (e.type ≠ ui.TouchEventType.Start →
      on_touch_event top_widget captured e = (captured, captured)) := by
  constructor
  · intro h
    simp only [on_touch_event]
    rw [if_pos h]
    cases touch_widget top_widget e <;> rfl
  · intro h
    simp only [on_touch_event]
    rw [if_neg h]
    cases captured <;> rfl

/-- Witness for C3: a `Start` over `cexRoot` captures and delivers to `cexA`;
a later `Move` at (100, 100) — over no widget at all — still delivers to the
captured `cexA`. -/
theorem C3_touch_capture_witness :
    on_touch_event cexRoot none cexEvent = (some cexA, some cexA)
    ∧ on_touch_event cexDeadRoot (some cexA) ⟨ui.TouchEventType.Move, ⟨100, 100⟩⟩ =
        (some cexA, some cexA) := by
  constructor
  · rw [(C3_touch_capture cexRoot none cexEvent).1 rfl]
    rfl
  · exact (C3_touch_capture cexDeadRoot (some cexA)
      ⟨ui.TouchEventType.Move, ⟨100, 100⟩⟩).2 (by decide)

/-- C9: when a `Start` event's hit test resolves no widget, the captured
widget is set to `none` and nothing receives `on_touch` — a widget captured by
a previous gesture included — and the gesture's subsequent non-`Start` events
likewise invoke no widget. -/
theorem C9_start_miss_clears_capture (top_widget : ui.Widget)
    (captured : Option ui.Widget) (e : ui.TouchEvent)
    (hstart : e.type = ui.TouchEventType.Start)
    (hmiss : touch_widget top_widget e = none) :
    on_touch_event top_widget captured e = (none, none)
    ∧ ∀ (top2 : ui.Widget) (e2 : ui.TouchEvent), e2.type ≠ ui.TouchEventType.Start →
        on_touch_event top2 none e2 = (none, none) := by
  constructor
  · simp only [on_touch_event]
    rw [if_pos hstart, hmiss]
  · intro top2 e2 h2
    simp only [on_touch_event]
    rw [if_neg h2]

/-- Witness for C9: a `Start` at (1, 1) over `cexDeadRoot` (whose widgets all
refuse the event) clears a previously captured `cexA` and delivers to nobody;
the following `End` delivers to nobody either. -/
theorem C9_start_miss_clears_capture_witness :
    on_touch_event cexDeadRoot (some cexA) cexEvent = (none, none)
    ∧ on_touch_event cexDeadRoot none ⟨ui.TouchEventType.End, ⟨1, 1⟩⟩ = (none, none) := by
  have h := C9_start_miss_clears_capture cexDeadRoot (some cexA) cexEvent rfl rfl
  exact ⟨h.1, h.2 cexDeadRoot ⟨ui.TouchEventType.End, ⟨1, 1⟩⟩ (by decide)⟩

/-- C10: `on_touch_event` reassigns the captured widget only on `Start`: a
`Move` or `End` event leaves it unchanged, and the previously captured widget
(if any) is still the one delivered to. -/
theorem C10_capture_only_start (top_widget : ui.Widget)
    (captured : Option ui.Widget) (e : ui.TouchEvent)
    (h : e.type = ui.TouchEventType.Move ∨ e.type = ui.TouchEventType.End) :
    (on_touch_event top_widget captured e).1 = captured
    ∧ on_touch_event top_widget captured e = (captured, captured) := by
  have hne : e.type ≠ ui.TouchEventType.Start := by
    rcases h with h | h <;> rw [h] <;> intro hc <;> cases hc
  have heq : on_touch_event top_widget captured e = (captured, captured) := by
    simp only [on_touch_event]
    rw [if_neg hne]
    cases captured <;> rfl
  exact ⟨by rw [heq], heq⟩

/-- Witness for C10: with `cexB` captured, a `Move` far outside every widget
and an `End` both leave the captured widget `cexB` in place and deliver to
it. -/
theorem C10_capture_only_start_witness :
    on_touch_event cexDeadRoot (some cexB) ⟨ui.TouchEventType.Move, ⟨100, 100⟩⟩ =
      (some cexB, some cexB)
    ∧ (on_touch_event cexDeadRoot (some cexB) ⟨ui.TouchEventType.End, ⟨3, 3⟩⟩).1 =
        some cexB := by
  exact ⟨(C10_capture_only_start cexDeadRoot (some cexB)
            ⟨ui.TouchEventType.Move, ⟨100, 100⟩⟩ (Or.inl rfl)).2,
         (C10_capture_only_start cexDeadRoot (some cexB)
            ⟨ui.TouchEventType.End, ⟨3, 3⟩⟩ (Or.inr rfl)).1⟩

/-- Helper: one qualified, position-stable sample fed in `NoTouch` moves to
`TouchDetected` and emits exactly `touch_started`. -/
theorem Manager_feed_start (cal : touch.Calibration) (m : touch.Manager)
    (f : touch.Frame) (hm : m.state = touch.State.NoTouch)
    (hq : touch.qualified cal f) :
    (touch.Manager.feed cal m f true).1.state = touch.State.TouchDetected
    ∧ (touch.Manager.feed cal m f true).2 = [touch.Callback.started] := by
  obtain ⟨ht, hr⟩ := hq
  refine ⟨?_, ?_⟩ <;> simp [touch.Manager.feed, ht, hr, hm]

/-- Helper: a qualified sample fed in `TouchDetected` stays there and emits
exactly `touch_moved`, whatever the stability oracle says. -/
theorem Manager_feed_move (cal : touch.Calibration) (m : touch.Manager)
    (f : touch.Frame) (b : Bool) (hm : m.state = touch.State.TouchDetected)
    (hq : touch.qualified cal f) :
    (touch.Manager.feed cal m f b).1.state = touch.State.TouchDetected
    ∧ (touch.Manager.feed cal m f b).2 = [touch.Callback.moved] := by
  obtain ⟨ht, hr⟩ := hq
  refine ⟨?_, ?_⟩ <;> simp [touch.Manager.feed, ht, hr, hm]

/-- Helper: a sample failing the contact or the pressure test, fed in
`TouchDetected`, moves back to `NoTouch` and emits exactly `touch_ended`. -/
theorem Manager_feed_end (cal : touch.Calibration) (m : touch.Manager)
    (f : touch.Frame) (b : Bool) (hm : m.state = touch.State.TouchDetected)
    (hnq : ¬ touch.qualified cal f) :
    (touch.Manager.feed cal m f b).1.state = touch.State.NoTouch
    ∧ (touch.Manager.feed cal m f b).2 = [touch.Callback.ended] := by
  by_cases ht : f.touch = true
  · have hr : ¬ (touch.calculate_metrics f).r < cal.r_touch_threshold :=
      fun hr => hnq ⟨ht, hr⟩
    refine ⟨?_, ?_⟩ <;> simp [touch.Manager.feed, ht, hr, hm]
  · have ht2 : f.touch = false := by simpa using ht
    refine ⟨?_, ?_⟩ <;> simp [touch.Manager.feed, ht2, hm]

/-- Helper: from `TouchDetected`, a run of qualified samples stays in
`TouchDetected` and emits one `touch_moved` per sample. -/
theorem Manager_feedRun_moves (cal : touch.Calibration) (m : touch.Manager)
    (hm : m.state = touch.State.TouchDetected)
    (samples : List (touch.Frame × Bool))
    (hq : ∀ s ∈ samples, touch.qualified cal s.1) :
    (touch.Manager.feedRun cal m samples).1.state = touch.State.TouchDetected
    ∧ (touch.Manager.feedRun cal m samples).2 =
        List.replicate samples.length touch.Callback.moved := by
  induction samples generalizing m with
  | nil => exact ⟨hm, rfl⟩
  | cons s rest ih =>
    have hstep := Manager_feed_move cal m s.1 s.2 hm (hq s (by simp))
    have hrest := ih (touch.Manager.feed cal m s.1 s.2).1 hstep.1
      (fun x hx => hq x (by simp [hx]))
    refine ⟨?_, ?_⟩ <;>
      simp [touch.Manager.feedRun, hstep.2, hrest.1, hrest.2, List.replicate_succ]

/-- Helper: `feedRun` over an appended list runs the second list from the
state the first one reached, concatenating the callbacks. -/
theorem Manager_feedRun_append (cal : touch.Calibration) (m : touch.Manager)
    (l1 l2 : List (touch.Frame × Bool)) :
    touch.Manager.feedRun cal m (l1 ++ l2) =
      ((touch.Manager.feedRun cal (touch.Manager.feedRun cal m l1).1 l2).1,
        (touch.Manager.feedRun cal m l1).2 ++
          (touch.Manager.feedRun cal (touch.Manager.feedRun cal m l1).1 l2).2) := by
  induction l1 generalizing m with
  | nil => simp [touch.Manager.feedRun]
  | cons s rest ih => simp [touch.Manager.feedRun, ih, List.append_assoc]

/-- Helper: `feedRun` on a single sample is one `feed` step. -/
theorem Manager_feedRun_single (cal : touch.Calibration) (m : touch.Manager)
    (f : touch.Frame) (b : Bool) :
    touch.Manager.feedRun cal m [(f, b)] =
      ((touch.Manager.feed cal m f b).1, (touch.Manager.feed cal m f b).2) := by
  simp [touch.Manager.feedRun]

/-- C4: from `NoTouch`, a nonempty run of contact-present, pressure-qualified,
position-stable samples reaches `TouchDetected` and invokes `touch_started`
exactly once (first sample) and `touch_moved` on each further sample, never
`touch_started` again; the first subsequent sample failing the contact or
pressure test returns the machine to `NoTouch` and invokes `touch_ended`
exactly once. -/
theorem C4_touch_state_machine (cal : touch.Calibration) (m : touch.Manager)
    (hm : m.state = touch.State.NoTouch)
    (samples : List (touch.Frame × Bool)) (hne : samples ≠ [])
    (hq : ∀ s ∈ samples, touch.qualified cal s.1)
    (hstable : ∀ s ∈ samples, s.2 = true)
    (fend : touch.Frame) (bend : Bool) (hnq : ¬ touch.qualified cal fend) :
    (touch.Manager.feedRun cal m samples).1.state = touch.State.TouchDetected
    ∧ (touch.Manager.feedRun cal m samples).2 =
        touch.Callback.started ::
          List.replicate (samples.length - 1) touch.Callback.moved
    ∧ (touch.Manager.feedRun cal m (samples ++ [(fend, bend)])).1.state =
        touch.State.NoTouch
    ∧ (touch.Manager.feedRun cal m (samples ++ [(fend, bend)])).2 =
        (touch.Callback.started ::
          List.replicate (samples.length - 1) touch.Callback.moved)
          ++ [touch.Callback.ended] := by
  obtain ⟨s0, rest, rfl⟩ : ∃ s0 rest, samples = s0 :: rest := by
    cases samples with
    | nil => exact absurd rfl hne
    | cons a b => exact ⟨a, b, rfl⟩
  have hstab0 : s0.2 = true := hstable s0 (by simp)
  have hfed : (touch.Manager.feed cal m s0.1 s0.2).1.state = touch.State.TouchDetected
      ∧ (touch.Manager.feed cal m s0.1 s0.2).2 = [touch.Callback.started] := by
    rw [hstab0]
    exact Manager_feed_start cal m s0.1 hm (hq s0 (by simp))
  have hrest := Manager_feedRun_moves cal (touch.Manager.feed cal m s0.1 s0.2).1 hfed.1
    rest (fun x hx => hq x (by simp [hx]))
  have h1 : (touch.Manager.feedRun cal m (s0 :: rest)).1.state =
      touch.State.TouchDetected := by
    simp [touch.Manager.feedRun, hrest.1]
  have h2 : (touch.Manager.feedRun cal m (s0 :: rest)).2 =
      touch.Callback.started :: List.replicate rest.length touch.Callback.moved := by
    simp [touch.Manager.feedRun, hfed.2, hrest.2]
  have hend := Manager_feed_end cal (touch.Manager.feedRun cal m (s0 :: rest)).1 fend bend
    h1 hnq
  have happ := Manager_feedRun_append cal m (s0 :: rest) [(fend, bend)]
  have hlen : (s0 :: rest).length - 1 = rest.length := by simp
  refine ⟨h1, by rw [h2, hlen], ?_, ?_⟩
  · rw [happ, Manager_feedRun_single]
    exact hend.1
  · rw [happ, Manager_feedRun_single, hend.2, h2, hlen]

/-- Witness for C4: two qualified stable frames then a contact-lost frame give
exactly `started`, `moved`, `ended` and land back in `NoTouch`. -/
theorem C4_touch_state_machine_witness :
    (touch.Manager.feedRun calFix mgrIdle [(frameQual, true), (frameQual, true)]).1.state =
      touch.State.TouchDetected
    ∧ (touch.Manager.feedRun calFix mgrIdle [(frameQual, true), (frameQual, true)]).2 =
        touch.Callback.started :: List.replicate 1 touch.Callback.moved
    ∧ (touch.Manager.feedRun calFix mgrIdle
        ([(frameQual, true), (frameQual, true)] ++ [(frameIdle, false)])).1.state =
        touch.State.NoTouch
    ∧ (touch.Manager.feedRun calFix mgrIdle
        ([(frameQual, true), (frameQual, true)] ++ [(frameIdle, false)])).2 =
        (touch.Callback.started :: List.replicate 1 touch.Callback.moved)
          ++ [touch.Callback.ended] := by
  have hq : touch.qualified calFix frameQual := by
    constructor
    · rfl
    · have h : (touch.calculate_metrics frameQual).r = 0 := by
        simp [touch.calculate_metrics, frameQual]
      rw [h]
      norm_num [calFix]
  exact C4_touch_state_machine calFix mgrIdle rfl [(frameQual, true), (frameQual, true)]
    (by simp)
    (by
      intro s hs
      have hseq : s = (frameQual, true) := by
        simpa using hs
      rw [hseq]
      exact hq)
    (by
      intro s hs
      have hseq : s = (frameQual, true) := by
        simpa using hs
      rw [hseq])
    frameIdle false (fun h => absurd h.1 (by decide))

/-- Helper: the state side of one `service` step. -/
theorem service_fst (cond : Bool) (tag : Serviced) (f : EventDispatcher → EventDispatcher)
    (acc : EventDispatcher × List Serviced) :
    (service cond tag f acc).1 = if cond then f acc.1 else acc.1 := by
  cases cond <;> simp [service]

/-- Helper: the trace side of one `service` step. -/
theorem service_mem (x : Serviced) (cond : Bool) (tag : Serviced)
    (f : EventDispatcher → EventDispatcher) (acc : EventDispatcher × List Serviced) :
    (x ∈ (service cond tag f acc).2 ↔ x ∈ acc.2 ∨ (cond = true ∧ x = tag)) := by
  cases cond <;> simp [service]

/-- C2 (counterexample): a dispatch cycle entered with `display_sleep = true`,
all bits pending and one switch pressed: `handle_switches` wakes the display
mid-cycle, and the frame-sync, encoder and touch bits ARE serviced in that
same cycle, although the cycle was entered asleep. -/
theorem C2_sleep_gate_counterexample :
    sleepState.display_sleep = true
    ∧ allPending.touch = true
    ∧ (dispatch calFix sleepState allPending pressInputs).2 =
        [Serviced.application, Serviced.local_queue, Serviced.rtc_tick, Serviced.switches,
          Serviced.lcd_frame_sync, Serviced.encoder, Serviced.touch] := by
  exact ⟨rfl, rfl, rfl⟩

/-- C2 (amended): in a dispatch cycle entered with `display_sleep = true`, the
LCD frame-sync, encoder and touch bits are never serviced — provided no switch
event wakes the display earlier in the same cycle (the switches bit is not
pending, or no switch is pressed). -/
theorem C2_display_sleep_gate (cal : touch.Calibration) (s : EventDispatcher)
    (events : EventMask) (inp : Inputs)
    (hsleep : s.display_sleep = true)
    (hnowake : events.switches = false
      ∨ inp.switches_state.any (fun b => b) = false) :
    Serviced.lcd_frame_sync ∉ (dispatch cal s events inp).2
    ∧ Serviced.encoder ∉ (dispatch cal s events inp).2
    ∧ Serviced.touch ∉ (dispatch cal s events inp).2 := by
  have hkeep : (handle_switches s inp.switches_state).1.display_sleep = true ∨
      events.switches = false := by
    rcases hnowake with h | h
    · exact Or.inr h
    · exact Or.inl (by simp [handle_switches, hsleep, h])
  have hstay : (service events.switches Serviced.switches
      (fun st => (handle_switches st inp.switches_state).1)
      (service events.rtc_tick Serviced.rtc_tick id
        (service events.local_queue Serviced.local_queue id
          (service events.application Serviced.application id
            (s, ([] : List Serviced)))))).1.display_sleep = true := by
    simp only [service_fst, id_eq, ite_self]
    rcases hkeep with h | h
    · by_cases hs2 : events.switches = true
      · simp [hs2, h]
      · simp only [Bool.not_eq_true] at hs2
        simp [hs2, hsleep]
    · simp [h, hsleep]
  have key : (dispatch cal s events inp).2 =
      (service events.switches Serviced.switches
        (fun st => (handle_switches st inp.switches_state).1)
        (service events.rtc_tick Serviced.rtc_tick id
          (service events.local_queue Serviced.local_queue id
            (service events.application Serviced.application id
              (s, ([] : List Serviced)))))).2 := by
    simp only [dispatch]
    rw [hstay]
    simp
  refine ⟨?_, ?_, ?_⟩ <;>
    · rw [key]
      simp [service_mem]

/-- Witness for C2 (amended): entered asleep with every bit pending but no
switch pressed, the cycle services none of the three gated sources. -/
theorem C2_display_sleep_gate_witness :
    Serviced.lcd_frame_sync ∉ (dispatch calFix sleepState allPending idleInputs).2
    ∧ Serviced.encoder ∉ (dispatch calFix sleepState allPending idleInputs).2
    ∧ Serviced.touch ∉ (dispatch calFix sleepState allPending idleInputs).2 :=
  C2_display_sleep_gate calFix sleepState allPending idleInputs rfl (Or.inr rfl)

/-- C8: key bubbling starts at the focused widget and walks the parent chain
until some widget consumes the event or the chain is exhausted (it consumes
iff some widget of the chain consumes), and an awake `handle_switches` hands a
pressed switch's key event to the focus manager's update exactly when no
widget of the chain consumed it. -/
theorem C8_key_bubbling (chain : List ChainNode) (e : Nat) (s : EventDispatcher)
    (sw : List Bool) (i : Nat) (hawake : s.display_sleep = false) :
    (event_bubble_key chain e = true ↔ ∃ n ∈ chain, n.on_key e = true)
    ∧ (i ∈ (handle_switches s sw).2 ↔
        i < sw.length ∧ sw.getD i false = true
          ∧ event_bubble_key s.focus_chain i = false) := by
  constructor
  · induction chain with
    | nil => simp [event_bubble_key]
    | cons n rest ih =>
      by_cases hk : n.on_key e = true
      · simp [event_bubble_key, hk]
      · simp only [event_bubble_key, hk, if_false]
        simp only [Bool.false_eq_true] at hk
        simp [ih, hk]
  · rw [handle_switches, if_neg (by simp [hawake])]
    simp [List.mem_filter, List.mem_range, Bool.and_eq_true, Bool.not_eq_true']

/-- Witness for C8: on the chain `[nodeA, nodeB]`, key 5 is consumed (by
`nodeA`) and key 0 is consumed by nobody, so the pressed switch 0 is handed to
the focus manager's update. -/
theorem C8_key_bubbling_witness :
    (event_bubble_key [nodeA, nodeB] 5 = true ↔
      ∃ n ∈ [nodeA, nodeB], n.on_key 5 = true)
    ∧ (0 ∈ (handle_switches awakeState [true]).2 ↔
        0 < 1 ∧ [true].getD 0 false = true
          ∧ event_bubble_key [nodeA, nodeB] 0 = false) :=
  C8_key_bubbling [nodeA, nodeB] 5 awakeState [true] 0 rfl

/-- Witness for C5: registering at the occupied ID 3 hits the panic branch;
registering ID 3 into the empty map succeeds and stores the handler. -/
theorem C5_register_handler_witness :
    mapWith3.register_handler 3 9 = none
    ∧ ∃ m2, mapEmpty.register_handler 3 7 = some m2 ∧ m2.map 3 = some 7 :=
  ⟨(C5_register_handler mapWith3 3 9).1 rfl,
    (C5_register_handler mapEmpty 3 7).2 rfl⟩

/-- Witness for C6: `send` invokes the handler registered at in-range ID 3,
leaves the map unchanged, drops out-of-range ID 9, and drops ID 3 again once
it is unregistered. -/
theorem C6_send_witness :
    (mapWith3.send 3).1 = some 7
    ∧ (mapWith3.send 3).2 = mapWith3
    ∧ (mapWith3.send 9).1 = none
    ∧ ((mapWith3.unregister_handler 3).send 3).1 = none := by
  refine ⟨((C6_send mapWith3 3).2.1 7).mpr ⟨by decide, rfl⟩,
    (C6_send mapWith3 3).1, rfl, (C6_send mapWith3 3).2.2⟩
